import Mathlib

/-!
Shallow embedding of `keystoneauth/access.py`: the version-agnostic access
token model (`AccessInfo`), its V2 and V3 adapters, and the `create` factory.

Token payloads are decoded JSON objects; we model them as association lists
of string keys to `JVal` values, with Python dict / subscript / truthiness
semantics made explicit.  Python `None` and JSON `null` coincide after
decoding, so both are `JVal.null`; an accessor that can raise returns
`Except PyErr _`.
-/

namespace KeystoneAccess

/-- JSON-like value as decoded from an identity-service response body.
`null` doubles as Python `None`, the explicit absent value. -/
inductive JVal where
  | null : JVal
  | bool (b : Bool) : JVal
  | num (n : Int) : JVal
  | str (s : String) : JVal
  | arr (l : List JVal) : JVal
  | obj (l : List (String × JVal)) : JVal

/-- A decoded JSON object (Python dict with string keys, unique keys,
insertion ordered). -/
abbrev JObj := List (String × JVal)

/-- Dict lookup: first binding of the key, if any. -/
def jget (d : JObj) (k : String) : Option JVal :=
  match d with
  | [] => none
  | (k2, v) :: rest => if k2 = k then some v else jget rest k

/-- Python truthiness of a decoded value. -/
def JVal.truthy : JVal → Bool
  | JVal.null => false
  | JVal.bool b => b
  | JVal.num n => n != 0
  | JVal.str s => !s.isEmpty
  | JVal.arr l => !l.isEmpty
  | JVal.obj l => !l.isEmpty

/-- Exceptions the accessors can raise. -/
inductive PyErr where
  | keyError : PyErr
  | typeError : PyErr
  | attrError : PyErr
deriving DecidableEq

/-- `d[k]` on a dict: KeyError when the key is absent. -/
def dsub (d : JObj) (k : String) : Except PyErr JVal :=
  match jget d k with
  | some v => Except.ok v
  | none => Except.error PyErr.keyError

/-- `v[k]` subscription with a string key on an arbitrary value
(TypeError on non-dicts). -/
def jsub (v : JVal) (k : String) : Except PyErr JVal :=
  match v with
  | JVal.obj l => dsub l k
  | _ => Except.error PyErr.typeError

/-- `v.get(k, dflt)` dict method; AttributeError on non-dicts. -/
def jgetdflt (v : JVal) (k : String) (dflt : JVal) : Except PyErr JVal :=
  match v with
  | JVal.obj l => Except.ok ((jget l k).getD dflt)
  | _ => Except.error PyErr.attrError

/-- `k in v` membership test (token payload substructures are dicts). -/
def jhas (v : JVal) (k : String) : Except PyErr Bool :=
  match v with
  | JVal.obj l => Except.ok (jget l k).isSome
  | _ => Except.error PyErr.typeError

/-- `v[i]` with a nonnegative integer index; an out-of-range index on a
sequence is reported as `none` so the caller decides whether the IndexError
is caught.  An integer key is never present in a string-keyed object. -/
def jidx (v : JVal) (i : Nat) : Except PyErr (Option JVal) :=
  match v with
  | JVal.arr l => Except.ok (l.get? i)
  | JVal.str s => Except.ok ((s.toList.get? i).map fun c => JVal.str (String.mk [c]))
  | JVal.obj _ => Except.error PyErr.keyError
  | _ => Except.error PyErr.typeError

/-- `d[k] = v` / `d.update(k=v)`: replace in place, else append. -/
def jset (d : JObj) (k : String) (v : JVal) : JObj :=
  match d with
  | [] => [(k, v)]
  | (k2, w) :: rest => if k2 = k then (k2, v) :: rest else (k2, w) :: jset rest k v

/-- `d[k1][k2]`. -/
def dsub2 (d : JObj) (k1 k2 : String) : Except PyErr JVal :=
  match dsub d k1 with
  | Except.ok v => jsub v k2
  | Except.error e => Except.error e

/-- `d[k1][k2][k3]`. -/
def dsub3 (d : JObj) (k1 k2 k3 : String) : Except PyErr JVal :=
  match dsub2 d k1 k2 with
  | Except.ok v => jsub v k3
  | Except.error e => Except.error e

/-! ### V2 adapter accessors -/

/-- `AccessInfoV2.project_name` (access.py 432-451): three-tier fallback.
Tier 1 reads `self['token']['tenant']` and on success returns
`tenant_dict.get('name')`; a KeyError moves to tier 2 `user.tenantName`,
then tier 3 `token.tenantId`; falling off the end returns `None`. -/
def project_name_v2 (d : JObj) : Except PyErr JVal :=
  match dsub2 d "token" "tenant" with
  | Except.ok tenant_dict => jgetdflt tenant_dict "name" JVal.null
  | Except.error PyErr.keyError =>
    match dsub2 d "user" "tenantName" with
    | Except.ok v => Except.ok v
    | Except.error PyErr.keyError =>
      match dsub2 d "token" "tenantId" with
      | Except.ok v => Except.ok v
      | Except.error PyErr.keyError => Except.ok JVal.null
      | Except.error e => Except.error e
    | Except.error e => Except.error e
  | Except.error e => Except.error e

/-- `AccessInfoV2.project_id` (access.py 486-505): same three-tier shape
with `tenant_dict.get('id')`, then `user.tenantId`, then `token.tenantId`. -/
def project_id_v2 (d : JObj) : Except PyErr JVal :=
  match dsub2 d "token" "tenant" with
  | Except.ok tenant_dict => jgetdflt tenant_dict "id" JVal.null
  | Except.error PyErr.keyError =>
    match dsub2 d "user" "tenantId" with
    | Except.ok v => Except.ok v
    | Except.error PyErr.keyError =>
      match dsub2 d "token" "tenantId" with
      | Except.ok v => Except.ok v
      | Except.error PyErr.keyError => Except.ok JVal.null
      | Except.error e => Except.error e
    | Except.error e => Except.error e
  | Except.error e => Except.error e

/-- `AccessInfoV2.scoped` (access.py 453-459): true when the condition
`'serviceCatalog' in self and self['serviceCatalog'] and 'tenant' in
self['token']` holds; `and` short-circuits left to right. -/
def scoped_v2 (d : JObj) : Except PyErr Bool :=
  match jget d "serviceCatalog" with
  | none => Except.ok false
  | some sc =>
    if sc.truthy then
      match dsub d "token" with
      | Except.ok tok =>
        match jhas tok "tenant" with
        | Except.ok b => Except.ok b
        | Except.error e => Except.error e
      | Except.error e => Except.error e
    else Except.ok false

/-- `AccessInfoV2.project_scoped` (access.py 461-463): `'tenant' in self['token']`. -/
def project_scoped_v2 (d : JObj) : Except PyErr Bool :=
  match dsub d "token" with
  | Except.ok tok => jhas tok "tenant"
  | Except.error e => Except.error e

/-- `AccessInfoV2.audit_id` (access.py 529-534):
`self['token'].get('audit_ids', [])[0]` with IndexError caught to `None`. -/
def audit_id_v2 (d : JObj) : Except PyErr JVal :=
  match dsub d "token" with
  | Except.ok tok =>
    match jgetdflt tok "audit_ids" (JVal.arr []) with
    | Except.ok ids =>
      match jidx ids 0 with
      | Except.ok (some v) => Except.ok v
      | Except.ok none => Except.ok JVal.null
      | Except.error e => Except.error e
    | Except.error e => Except.error e
  | Except.error e => Except.error e

/-- `AccessInfoV2.audit_chain_id` (access.py 536-541): second element. -/
def audit_chain_id_v2 (d : JObj) : Except PyErr JVal :=
  match dsub d "token" with
  | Except.ok tok =>
    match jgetdflt tok "audit_ids" (JVal.arr []) with
    | Except.ok ids =>
      match jidx ids 1 with
      | Except.ok (some v) => Except.ok v
      | Except.ok none => Except.ok JVal.null
      | Except.error e => Except.error e
    | Except.error e => Except.error e
  | Except.error e => Except.error e

/-- `AccessInfoV2.auth_token` (access.py 385-390): the stored override under
the reserved `auth_token` key, falling back to `token.id` on KeyError. -/
def auth_token_v2 (d : JObj) : Except PyErr JVal :=
  match jget d "auth_token" with
  | some v => Except.ok v
  | none => dsub2 d "token" "id"

/-- `AccessInfoV2.__init__` (access.py 375-380): stamps `version='v2.0'`;
the catalog factory call then evaluates `self['token']['id']`, so a payload
without it raises at construction. -/
def accessInfoV2_init (acc : JObj) : Except PyErr JObj :=
  let d := jset acc "version" (JVal.str "v2.0")
  match dsub2 d "token" "id" with
  | Except.ok _ => Except.ok d
  | Except.error e => Except.error e

/-! ### V3 adapter accessors -/

/-- `AccessInfoV3.__init__` (access.py 549-556): stamps `version='v3'` and
stores the bearer under `auth_token` only when the argument is truthy
(a non-`None`, non-empty string). -/
def accessInfoV3_init (token : Option String) (body : JObj) : JObj :=
  let d := jset body "version" (JVal.str "v3")
  match token with
  | some s => if s.isEmpty then d else jset d "auth_token" (JVal.str s)
  | none => d

/-- `AccessInfo.auth_token` (access.py 82-89), not overridden by V3:
`self['auth_token']`, KeyError when absent. -/
def auth_token_v3 (d : JObj) : Except PyErr JVal :=
  dsub d "auth_token"

/-- `AccessInfoV3.is_federated` (access.py 561-563):
`'OS-FEDERATION' in self['user']`. -/
def is_federated_v3 (d : JObj) : Except PyErr Bool :=
  match dsub d "user" with
  | Except.ok u => jhas u "OS-FEDERATION"
  | Except.error e => Except.error e

/-- `AccessInfoV3.user_domain_id` (access.py 577-584): returns
`self['user']['domain']['id']`; on KeyError, `None` when federated, else the
KeyError is re-raised. -/
def user_domain_id_v3 (d : JObj) : Except PyErr JVal :=
  match dsub3 d "user" "domain" "id" with
  | Except.ok v => Except.ok v
  | Except.error PyErr.keyError =>
    match is_federated_v3 d with
    | Except.ok true => Except.ok JVal.null
    | Except.ok false => Except.error PyErr.keyError
    | Except.error e => Except.error e
  | Except.error e => Except.error e

/-- `AccessInfoV3.user_domain_name` (access.py 586-593): same shape with
`self['user']['domain']['name']`. -/
def user_domain_name_v3 (d : JObj) : Except PyErr JVal :=
  match dsub3 d "user" "domain" "name" with
  | Except.ok v => Except.ok v
  | Except.error PyErr.keyError =>
    match is_federated_v3 d with
    | Except.ok true => Except.ok JVal.null
    | Except.ok false => Except.error PyErr.keyError
    | Except.error e => Except.error e
  | Except.error e => Except.error e

/-- `AccessInfoV3.project_id` (access.py 619-623): `self.get('project')`;
subscripts `['id']` only when the project value is truthy, else `None`. -/
def project_id_v3 (d : JObj) : Except PyErr JVal :=
  let project := (jget d "project").getD JVal.null
  if project.truthy then jsub project "id" else Except.ok JVal.null

/-- `AccessInfoV3.project_name` (access.py 637-641). -/
def project_name_v3 (d : JObj) : Except PyErr JVal :=
  let project := (jget d "project").getD JVal.null
  if project.truthy then jsub project "name" else Except.ok JVal.null

/-- `AccessInfoV3.project_domain_id` (access.py 625-629): when the project
value is truthy, `project['domain']['id']` with no KeyError handling. -/
def project_domain_id_v3 (d : JObj) : Except PyErr JVal :=
  let project := (jget d "project").getD JVal.null
  if project.truthy then
    match jsub project "domain" with
    | Except.ok dm => jsub dm "id"
    | Except.error e => Except.error e
  else Except.ok JVal.null

/-- `AccessInfoV3.project_domain_name` (access.py 631-635). -/
def project_domain_name_v3 (d : JObj) : Except PyErr JVal :=
  let project := (jget d "project").getD JVal.null
  if project.truthy then
    match jsub project "domain" with
    | Except.ok dm => jsub dm "name"
    | Except.error e => Except.error e
  else Except.ok JVal.null

/-- `AccessInfoV3.scoped` (access.py 643-645): Python `and` returns the last
evaluated operand, so a present-but-falsy catalog value is returned as-is;
the result is consumed for its truthiness. -/
def scoped_v3 (d : JObj) : JVal :=
  match jget d "catalog" with
  | none => JVal.bool false
  | some cat => if cat.truthy then JVal.bool (jget d "project").isSome else cat

/-- `AccessInfoV3.project_scoped` (access.py 647-649): `'project' in self`. -/
def project_scoped_v3 (d : JObj) : Bool :=
  (jget d "project").isSome

/-- `AccessInfoV3.audit_id` (access.py 679-684):
`self.get('audit_ids', [])[0]` with IndexError caught to `None`. -/
def audit_id_v3 (d : JObj) : Except PyErr JVal :=
  match jidx ((jget d "audit_ids").getD (JVal.arr [])) 0 with
  | Except.ok (some v) => Except.ok v
  | Except.ok none => Except.ok JVal.null
  | Except.error e => Except.error e

/-- `AccessInfoV3.audit_chain_id` (access.py 686-691): second element. -/
def audit_chain_id_v3 (d : JObj) : Except PyErr JVal :=
  match jidx ((jget d "audit_ids").getD (JVal.arr [])) 1 with
  | Except.ok (some v) => Except.ok v
  | Except.ok none => Except.ok JVal.null
  | Except.error e => Except.error e

/-! ### Polymorphic AccessInfo and base-class members -/

/-- A constructed AccessInfo instance: one of the two concrete adapters
wrapping its raw payload. -/
inductive Access where
  | v2 (d : JObj) : Access
  | v3 (d : JObj) : Access

/-- Dynamic dispatch of the `project_name` property. -/
def Access.project_name : Access → Except PyErr JVal
  | Access.v2 d => project_name_v2 d
  | Access.v3 d => project_name_v3 d

/-- Dynamic dispatch of the `project_id` property. -/
def Access.project_id : Access → Except PyErr JVal
  | Access.v2 d => project_id_v2 d
  | Access.v3 d => project_id_v3 d

/-- `AccessInfo.tenant_name` (access.py 203-206): synonym for `project_name`,
defined once on the base class as `return self.project_name`. -/
def Access.tenant_name (a : Access) : Except PyErr JVal :=
  Access.project_name a

/-- `AccessInfo.tenant_id` (access.py 279-282): synonym for `project_id`. -/
def Access.tenant_id (a : Access) : Except PyErr JVal :=
  Access.project_id a

/-- Dynamic dispatch of the `audit_id` property. -/
def Access.audit_id : Access → Except PyErr JVal
  | Access.v2 d => audit_id_v2 d
  | Access.v3 d => audit_id_v3 d

/-- Dynamic dispatch of the `audit_chain_id` property. -/
def Access.audit_chain_id : Access → Except PyErr JVal
  | Access.v2 d => audit_chain_id_v2 d
  | Access.v3 d => audit_chain_id_v3 d

/-- `AccessInfo.initial_audit_id` (access.py 360-367):
`self.audit_chain_id or self.audit_id`; Python `or` keeps the left operand
only when it is truthy. -/
def Access.initial_audit_id (a : Access) : Except PyErr JVal :=
  match Access.audit_chain_id a with
  | Except.ok c => if c.truthy then Except.ok c else Access.audit_id a
  | Except.error e => Except.error e

/-! ### Expiry and the factory -/

/-- Gap, in seconds, to determine whether the given token is about to
expire (access.py 27-28). -/
def STALE_TOKEN_DURATION : Int := 30

/-- `AccessInfo.will_expire_soon` (access.py 59-73), with timestamps as
seconds on a common timezone-normalized scale: `expires` is the resolved,
normalized expiry and `now` the current time; returns
`norm_expires < now + stale_duration` with the module default. -/
def will_expire_soon (expires now : Int) (stale_duration : Option Int) : Bool :=
  let sd := match stale_duration with
    | none => STALE_TOKEN_DURATION
    | some v => v
  decide (expires < now + sd)

/-- Failure modes of the `create` factory. -/
inductive CreateErr where
  | notImplemented : CreateErr
  | pyErr (e : PyErr) : CreateErr

/-- `create` (access.py 31-44), with `resp=None` so the body and the
optional bearer token are given directly: a top-level `token` key selects
`AccessInfoV3(auth_token, **body['token'])`, else a top-level `access` key
selects `AccessInfoV2(**body['access'])`, else the unrecognized-response
error is raised.  Splatting a non-dict value raises a TypeError. -/
def create (body : JObj) (auth_token : Option String) : Except CreateErr Access :=
  match jget body "token" with
  | some (JVal.obj tok) => Except.ok (Access.v3 (accessInfoV3_init auth_token tok))
  | some _ => Except.error (CreateErr.pyErr PyErr.typeError)
  | none =>
    match jget body "access" with
    | some (JVal.obj acc) =>
      match accessInfoV2_init acc with
      | Except.ok d => Except.ok (Access.v2 d)
      | Except.error e => Except.error (CreateErr.pyErr e)
    | some _ => Except.error (CreateErr.pyErr PyErr.typeError)
    | none => Except.error CreateErr.notImplemented

/-! ### Helper lemmas -/

theorem JVal.truthy_bool (b : Bool) : (JVal.bool b).truthy = b :=
  rfl

theorem jget_jset_same (d : JObj) (k : String) (v : JVal) :
    jget (jset d k v) k = some v := by
  induction d with
  | nil => simp [jset, jget]
  | cons hd tl ih =>
    obtain ⟨k2, w⟩ := hd
    by_cases h : k2 = k
    · simp [jset, jget, h]
    · simp [jset, jget, h, ih]

theorem jget_jset_diff (d : JObj) (k1 k2 : String) (v : JVal) (h : k1 ≠ k2) :
    jget (jset d k1 v) k2 = jget d k2 := by
  induction d with
  | nil => simp [jset, jget, h]
  | cons hd tl ih =>
    obtain ⟨k3, w⟩ := hd
    by_cases h2 : k3 = k1
    · subst h2
      simp [jset, jget, h]
    · by_cases h3 : k3 = k2
      · subst h3
        simp [jset, jget, h2]
      · simp [jset, jget, h2, h3, ih]

/-! ### Claim theorems -/

/-- V2 payload whose only project information is the legacy
`token.tenantId` field. -/
def v2LegacyTenantIdPayload : JObj :=
  [("token", JVal.obj [("id", JVal.str "tok"), ("tenantId", JVal.str "t1")]),
   ("user", JVal.obj [("id", JVal.str "u1")])]

/-- C1 counterexample: on a V2 payload with only `token.tenantId` set (no
`token.tenant`, no `user.tenantName`, no `user.tenantId`), `project_name`
does NOT return the absent value: its third fallback tier returns
`token.tenantId` itself. -/
theorem c1_counterexample :
    project_name_v2 v2LegacyTenantIdPayload = Except.ok (JVal.str "t1") ∧
    JVal.str "t1" ≠ JVal.null :=
  ⟨rfl, fun h => JVal.noConfusion h⟩

/-- C1 amended: for every V2 payload in which `token.tenantId` is set but
`token.tenant`, `user.tenantName` and `user.tenantId` are absent, BOTH
`project_name` and `project_id` return the value of `token.tenantId` (the
name accessor falls back to the tenant id at the legacy tier). -/
theorem c1_theorem (d t : JObj) (v : JVal)
    (htok : jget d "token" = some (JVal.obj t))
    (hten : jget t "tenant" = none)
    (htid : jget t "tenantId" = some v)
    (huser : ∀ u, jget d "user" = some u →
      ∃ ul, u = JVal.obj ul ∧ jget ul "tenantName" = none ∧ jget ul "tenantId" = none) :
    project_name_v2 d = Except.ok v ∧ project_id_v2 d = Except.ok v := by
  cases hu : jget d "user" with
  | none =>
    simp [project_name_v2, project_id_v2, dsub2, dsub, jsub, htok, hten, htid, hu]
  | some u =>
    obtain ⟨ul, rfl, h1, h2⟩ := huser u hu
    simp [project_name_v2, project_id_v2, dsub2, dsub, jsub, htok, hten, htid, hu, h1, h2]

/-- Minimal payload exercising the legacy tier of the C1 amended theorem. -/
def c1WitnessPayload : JObj :=
  [("token", JVal.obj [("tenantId", JVal.str "t1")])]

/-- C1 witness: the amended theorem applied at a concrete payload. -/
theorem c1_theorem_witness :
    project_name_v2 c1WitnessPayload = Except.ok (JVal.str "t1") ∧
    project_id_v2 c1WitnessPayload = Except.ok (JVal.str "t1") :=
  c1_theorem c1WitnessPayload [("tenantId", JVal.str "t1")] (JVal.str "t1")
    rfl rfl rfl (by intro u h; simp [c1WitnessPayload, jget] at h)

/-- C7: in the V2 three-tier project lookup, a later tier is consulted only
on a missing key at the prior tier.  When `token.tenant` is present (even as
an empty object), the result is read from it alone — the legacy fields are
never consulted, so an empty tenant object yields the absent value; and at
tier 2, a present `user.tenantName` is returned whatever its value, without
consulting `token.tenantId`. -/
theorem c7_theorem (d t td u : JObj) (v : JVal) :
    (jget d "token" = some (JVal.obj t) → jget t "tenant" = some (JVal.obj td) →
      project_id_v2 d = Except.ok ((jget td "id").getD JVal.null) ∧
      project_name_v2 d = Except.ok ((jget td "name").getD JVal.null)) ∧
    (jget d "token" = some (JVal.obj t) → jget t "tenant" = none →
      jget d "user" = some (JVal.obj u) → jget u "tenantName" = some v →
      project_name_v2 d = Except.ok v) := by
  constructor
  · intro h1 h2
    simp [project_id_v2, project_name_v2, dsub2, dsub, jsub, jgetdflt, h1, h2]
  · intro h1 h2 h3 h4
    simp [project_name_v2, dsub2, dsub, jsub, h1, h2, h3, h4]

/-- V2 payload with an empty `token.tenant` object and both legacy fields
populated: the legacy tiers must not be consulted. -/
def c7WitnessPayload : JObj :=
  [("token", JVal.obj [("tenant", JVal.obj []), ("tenantId", JVal.str "L")]),
   ("user", JVal.obj [("tenantId", JVal.str "LU"), ("tenantName", JVal.str "LN")])]

/-- C7 witness: with `token.tenant` present but empty and legacy fields set,
`project_id` is absent (the legacy tiers are ignored). -/
theorem c7_theorem_witness :
    project_id_v2 c7WitnessPayload = Except.ok JVal.null ∧
    project_name_v2 c7WitnessPayload = Except.ok JVal.null :=
  (c7_theorem c7WitnessPayload
    [("tenant", JVal.obj []), ("tenantId", JVal.str "L")] [] [] JVal.null).1 rfl rfl

/-- C9: `tenant_name` and `tenant_id` are pure base-class aliases of
`project_name` and `project_id` for every constructed instance, V2 or V3,
including when the aliased lookup returns the absent value or raises. -/
theorem c9_theorem (a : Access) :
    Access.tenant_name a = Access.project_name a ∧
    Access.tenant_id a = Access.project_id a :=
  ⟨rfl, rfl⟩

/-- V3 payload whose `project` key is present but maps to an empty object. -/
def v3EmptyProjectPayload : JObj :=
  [("project", JVal.obj []), ("user", JVal.obj [("id", JVal.str "u1")])]

/-- C2 counterexample: with `project` present as an empty object (so
`project.domain` absent), both project-domain accessors return the absent
value instead of propagating a lookup failure — the code guards on the
truthiness of the project value, not on key presence. -/
theorem c2_counterexample :
    jget v3EmptyProjectPayload "project" = some (JVal.obj []) ∧
    project_domain_id_v3 v3EmptyProjectPayload = Except.ok JVal.null ∧
    project_domain_name_v3 v3EmptyProjectPayload = Except.ok JVal.null :=
  ⟨rfl, rfl, rfl⟩

/-- C2 amended: with `project` present and `project.domain` present, the
accessors return `project.domain.id` / `project.domain.name`; with `project`
present as a NON-EMPTY object lacking `domain`, both accessors propagate the
KeyError; with `project` present but empty, both return the absent value. -/
theorem c2_theorem (d p dm : JObj) (i n : JVal) :
    (jget d "project" = some (JVal.obj p) → jget p "domain" = some (JVal.obj dm) →
      (jget dm "id" = some i → project_domain_id_v3 d = Except.ok i) ∧
      (jget dm "name" = some n → project_domain_name_v3 d = Except.ok n)) ∧
    (jget d "project" = some (JVal.obj p) → p ≠ [] → jget p "domain" = none →
      project_domain_id_v3 d = Except.error PyErr.keyError ∧
      project_domain_name_v3 d = Except.error PyErr.keyError) ∧
    (jget d "project" = some (JVal.obj []) →
      project_domain_id_v3 d = Except.ok JVal.null ∧
      project_domain_name_v3 d = Except.ok JVal.null) := by
  refine ⟨?_, ?_, ?_⟩
  · intro h1 h2
    cases p with
    | nil => simp [jget] at h2
    | cons hd tl =>
      constructor
      · intro h3
        simp [project_domain_id_v3, jsub, dsub, JVal.truthy, List.isEmpty, h1, h2, h3]
      · intro h3
        simp [project_domain_name_v3, jsub, dsub, JVal.truthy, List.isEmpty, h1, h2, h3]
  · intro h1 hp h2
    cases p with
    | nil => exact absurd rfl hp
    | cons hd tl =>
      exact ⟨by simp [project_domain_id_v3, jsub, dsub, JVal.truthy, List.isEmpty, h1, h2],
             by simp [project_domain_name_v3, jsub, dsub, JVal.truthy, List.isEmpty, h1, h2]⟩
  · intro h1
    exact ⟨by simp [project_domain_id_v3, JVal.truthy, List.isEmpty, h1],
           by simp [project_domain_name_v3, JVal.truthy, List.isEmpty, h1]⟩

/-- V3 payload with a full nested project domain. -/
def c2WitnessPayload : JObj :=
  [("project", JVal.obj
    [("domain", JVal.obj [("id", JVal.str "d-id"), ("name", JVal.str "d-name")])])]

/-- C2 witness: the amended theorem applied at a concrete nested payload. -/
theorem c2_theorem_witness :
    project_domain_id_v3 c2WitnessPayload = Except.ok (JVal.str "d-id") ∧
    project_domain_name_v3 c2WitnessPayload = Except.ok (JVal.str "d-name") := by
  have h := c2_theorem c2WitnessPayload
    [("domain", JVal.obj [("id", JVal.str "d-id"), ("name", JVal.str "d-name")])]
    [("id", JVal.str "d-id"), ("name", JVal.str "d-name")]
    (JVal.str "d-id") (JVal.str "d-name")
  exact ⟨(h.1 rfl rfl).1 rfl, (h.1 rfl rfl).2 rfl⟩

/-- C5: V3 user-domain accessors return `user.domain.id` / `user.domain.name`;
when `user.domain` is absent they return the absent value if the user object
carries an `OS-FEDERATION` key, and propagate the KeyError otherwise. -/
theorem c5_theorem (d u dm : JObj) (i n : JVal)
    (hu : jget d "user" = some (JVal.obj u)) :
    (jget u "domain" = some (JVal.obj dm) → jget dm "id" = some i →
      user_domain_id_v3 d = Except.ok i) ∧
    (jget u "domain" = some (JVal.obj dm) → jget dm "name" = some n →
      user_domain_name_v3 d = Except.ok n) ∧
    (jget u "domain" = none → (jget u "OS-FEDERATION").isSome = true →
      user_domain_id_v3 d = Except.ok JVal.null ∧
      user_domain_name_v3 d = Except.ok JVal.null) ∧
    (jget u "domain" = none → jget u "OS-FEDERATION" = none →
      user_domain_id_v3 d = Except.error PyErr.keyError ∧
      user_domain_name_v3 d = Except.error PyErr.keyError) := by
  refine ⟨?_, ?_, ?_, ?_⟩
  · intro h1 h2
    simp [user_domain_id_v3, dsub3, dsub2, dsub, jsub, hu, h1, h2]
  · intro h1 h2
    simp [user_domain_name_v3, dsub3, dsub2, dsub, jsub, hu, h1, h2]
  · intro h1 h2
    exact ⟨by simp [user_domain_id_v3, dsub3, dsub2, dsub, jsub, is_federated_v3, jhas, hu, h1, h2],
           by simp [user_domain_name_v3, dsub3, dsub2, dsub, jsub, is_federated_v3, jhas, hu, h1, h2]⟩
  · intro h1 h2
    exact ⟨by simp [user_domain_id_v3, dsub3, dsub2, dsub, jsub, is_federated_v3, jhas, hu, h1, h2],
           by simp [user_domain_name_v3, dsub3, dsub2, dsub, jsub, is_federated_v3, jhas, hu, h1, h2]⟩

/-- V3 payload for a federated user with no domain object. -/
def c5WitnessPayload : JObj :=
  [("user", JVal.obj [("OS-FEDERATION", JVal.obj [("groups", JVal.arr [])])])]

/-- C5 witness: a federated user with no `user.domain` gets the absent value
from both accessors. -/
theorem c5_theorem_witness :
    user_domain_id_v3 c5WitnessPayload = Except.ok JVal.null ∧
    user_domain_name_v3 c5WitnessPayload = Except.ok JVal.null := by
  have h := c5_theorem c5WitnessPayload
    [("OS-FEDERATION", JVal.obj [("groups", JVal.arr [])])] [] JVal.null JVal.null rfl
  exact (h.2.2.1 rfl rfl)

/-- C6: V2 `scoped` implies a present, truthy `serviceCatalog` and a
`tenant` key under `token`, while `project_scoped` is exactly the presence
of `token.tenant`; V3 `scoped` is truthy iff a present, truthy `catalog`
and a present `project` key coexist, while `project_scoped` is exactly the
presence of `project`. -/
theorem c6_theorem (d t : JObj) :
    (jget d "token" = some (JVal.obj t) →
      (scoped_v2 d = Except.ok true →
        (∃ sc, jget d "serviceCatalog" = some sc ∧ sc.truthy = true) ∧
        (jget t "tenant").isSome = true) ∧
      project_scoped_v2 d = Except.ok (jget t "tenant").isSome) ∧
    ((scoped_v3 d).truthy = true ↔
      ((∃ cat, jget d "catalog" = some cat ∧ cat.truthy = true) ∧
        (jget d "project").isSome = true)) ∧
    project_scoped_v3 d = (jget d "project").isSome := by
  refine ⟨?_, ?_, rfl⟩
  · intro h1
    constructor
    · intro h2
      cases hsc : jget d "serviceCatalog" with
      | none => simp [scoped_v2, hsc] at h2
      | some sc =>
        by_cases htr : sc.truthy = true
        · refine ⟨⟨sc, rfl, htr⟩, ?_⟩
          simp [scoped_v2, hsc, htr, dsub, jhas, h1] at h2
          exact h2
        · simp [scoped_v2, hsc, htr] at h2
    · simp [project_scoped_v2, dsub, jhas, h1]
  · cases hc : jget d "catalog" with
    | none => simp [scoped_v3, hc, JVal.truthy]
    | some cat =>
      by_cases htr : cat.truthy = true
      · simp [scoped_v3, hc, htr, JVal.truthy_bool]
      · simp [scoped_v3, hc, htr]

/-- V2 payload that is fully scoped: non-empty catalog and a tenant. -/
def c6WitnessPayload : JObj :=
  [("serviceCatalog", JVal.arr [JVal.null]),
   ("token", JVal.obj [("tenant", JVal.obj [("id", JVal.str "p")])])]

/-- C6 witness: the theorem applied at a fully scoped V2 payload. -/
theorem c6_theorem_witness :
    ((∃ sc, jget c6WitnessPayload "serviceCatalog" = some sc ∧ sc.truthy = true) ∧
      (jget [("tenant", JVal.obj [("id", JVal.str "p")])] "tenant").isSome = true) ∧
    project_scoped_v2 c6WitnessPayload = Except.ok true := by
  have h := c6_theorem c6WitnessPayload [("tenant", JVal.obj [("id", JVal.str "p")])]
  exact ⟨(h.1 rfl).1 rfl, (h.1 rfl).2⟩

/-- V2 payload whose audit chain id is a present-but-empty string. -/
def c8EmptyChainPayload : JObj :=
  [("token", JVal.obj [("audit_ids", JVal.arr [JVal.str "a1", JVal.str ""])])]

/-- C8 counterexample: with `audit_ids = ["a1", ""]`, the audit chain id is
present (the empty string, not the absent value), yet `initial_audit_id`
falls through to `audit_id` because Python's `or` tests truthiness. -/
theorem c8_counterexample :
    Access.audit_chain_id (Access.v2 c8EmptyChainPayload) = Except.ok (JVal.str "") ∧
    JVal.str "" ≠ JVal.null ∧
    Access.initial_audit_id (Access.v2 c8EmptyChainPayload) = Except.ok (JVal.str "a1") ∧
    JVal.str "a1" ≠ JVal.str "" := by
  refine ⟨rfl, fun h => JVal.noConfusion h, rfl, fun h => ?_⟩
  injection h with h2
  exact absurd h2 (by decide)

/-- C8 amended: for both adapters `audit_id` / `audit_chain_id` are the
first / second elements of the `audit_ids` sequence, absent when the index
is out of range; and `initial_audit_id` equals `audit_chain_id` when that
value is truthy (present and non-empty), else equals `audit_id`. -/
theorem c8_theorem (a : Access) (d t : JObj) (l : List JVal) (c : JVal) :
    (jget d "token" = some (JVal.obj t) → jget t "audit_ids" = some (JVal.arr l) →
      audit_id_v2 d = Except.ok (l[0]?.getD JVal.null) ∧
      audit_chain_id_v2 d = Except.ok (l[1]?.getD JVal.null)) ∧
    (jget d "audit_ids" = some (JVal.arr l) →
      audit_id_v3 d = Except.ok (l[0]?.getD JVal.null) ∧
      audit_chain_id_v3 d = Except.ok (l[1]?.getD JVal.null)) ∧
    (Access.audit_chain_id a = Except.ok c →
      (c.truthy = true → Access.initial_audit_id a = Except.ok c) ∧
      (c.truthy = false → Access.initial_audit_id a = Access.audit_id a)) := by
  refine ⟨?_, ?_, ?_⟩
  · intro h1 h2
    constructor
    · cases hg : l[0]? <;>
        simp [audit_id_v2, dsub, jgetdflt, jidx, h1, h2, hg]
    · cases hg : l[1]? <;>
        simp [audit_chain_id_v2, dsub, jgetdflt, jidx, h1, h2, hg]
  · intro h1
    constructor
    · cases hg : l[0]? <;> simp [audit_id_v3, jidx, h1, hg]
    · cases hg : l[1]? <;> simp [audit_chain_id_v3, jidx, h1, hg]
  · intro h1
    constructor <;> intro htr <;> simp [Access.initial_audit_id, h1, htr]

/-- V2 payload with two non-empty audit ids. -/
def c8WitnessPayload : JObj :=
  [("token", JVal.obj [("audit_ids", JVal.arr [JVal.str "x", JVal.str "y"])])]

/-- C8 witness: the amended theorem applied at a two-element audit list. -/
theorem c8_theorem_witness :
    audit_id_v2 c8WitnessPayload = Except.ok (JVal.str "x") ∧
    Access.initial_audit_id (Access.v2 c8WitnessPayload) = Except.ok (JVal.str "y") := by
  have h := c8_theorem (Access.v2 c8WitnessPayload) c8WitnessPayload
    [("audit_ids", JVal.arr [JVal.str "x", JVal.str "y"])]
    [JVal.str "x", JVal.str "y"] (JVal.str "y")
  exact ⟨(h.1 rfl rfl).1, (h.2.2 rfl).1 rfl⟩

/-- C3: with timestamps as seconds on the normalized scale,
`will_expire_soon` with no argument is true iff the expiry is strictly
earlier than now plus the default 30-second stale duration; in particular it
is true when the expiry equals now exactly, and false at now plus 31. -/
theorem c3_theorem (expires now : Int) :
    (will_expire_soon expires now none = true ↔ expires < now + 30) ∧
    will_expire_soon now now none = true ∧
    will_expire_soon (now + 31) now none = false := by
  refine ⟨?_, ?_, ?_⟩
  · simp [will_expire_soon, STALE_TOKEN_DURATION]
  · simp [will_expire_soon, STALE_TOKEN_DURATION]
  · simp [will_expire_soon, STALE_TOKEN_DURATION]

/-- C3 witness: a token expiring exactly now is already about to expire. -/
theorem c3_theorem_witness : will_expire_soon 1000 1000 none = true :=
  (c3_theorem 1000 1000).2.1

/-- C4: the factory selects V3 construction when a top-level `token` key is
present (handing the injected bearer to the V3 constructor), selects V2
construction from the `access` sub-object when `token` is absent and
`access` is present (the V2 constructor in turn requires `token.id` inside
the sub-object for the catalog call), and raises the unrecognized-response
error when neither key is present. -/
theorem c4_theorem (body : JObj) (bearer : Option String) :
    (∀ tok, jget body "token" = some (JVal.obj tok) →
      create body bearer = Except.ok (Access.v3 (accessInfoV3_init bearer tok))) ∧
    (∀ acc t i, jget body "token" = none → jget body "access" = some (JVal.obj acc) →
      jget acc "token" = some (JVal.obj t) → jget t "id" = some i →
      create body bearer = Except.ok (Access.v2 (jset acc "version" (JVal.str "v2.0")))) ∧
    (jget body "token" = none → jget body "access" = none →
      create body bearer = Except.error CreateErr.notImplemented) := by
  refine ⟨?_, ?_, ?_⟩
  · intro tok h
    simp [create, h]
  · intro acc t i h1 h2 h3 h4
    have hv : jget (jset acc "version" (JVal.str "v2.0")) "token" = some (JVal.obj t) := by
      rw [jget_jset_diff _ _ _ _ (by decide)]
      exact h3
    simp [create, accessInfoV2_init, dsub2, dsub, jsub, h1, h2, hv, h4]
  · intro h1 h2
    simp [create, h1, h2]

/-- Minimal V3 response body for the factory. -/
def c4V3Body : JObj :=
  [("token", JVal.obj [("user", JVal.obj [("id", JVal.str "u2")])])]

/-- C4 witness: dispatch on a concrete V3 body, and the failure on an empty
body. -/
theorem c4_theorem_witness :
    create c4V3Body (some "tok-xyz") =
      Except.ok (Access.v3 (accessInfoV3_init (some "tok-xyz")
        [("user", JVal.obj [("id", JVal.str "u2")])])) ∧
    create [] none = Except.error CreateErr.notImplemented := by
  have h1 := c4_theorem c4V3Body (some "tok-xyz")
  have h2 := c4_theorem [] none
  exact ⟨h1.1 _ rfl, h2.2.2 rfl rfl⟩

/-- C10: a V3 instance constructed with an absent or empty bearer stores no
override, so `auth_token` raises the missing-key error rather than returning
an absent value; a truthy bearer is stored and returned; V2, by contrast,
falls back to `token.id` when no override is stored. -/
theorem c10_theorem (body : JObj) (bearer : Option String) :
    (jget body "auth_token" = none → (bearer = none ∨ bearer = some "") →
      auth_token_v3 (accessInfoV3_init bearer body) = Except.error PyErr.keyError) ∧
    (∀ s, s.isEmpty = false →
      auth_token_v3 (accessInfoV3_init (some s) body) = Except.ok (JVal.str s)) ∧
    (∀ t i, jget body "auth_token" = none → jget body "token" = some (JVal.obj t) →
      jget t "id" = some i → auth_token_v2 body = Except.ok i) := by
  have hv : jget (jset body "version" (JVal.str "v3")) "auth_token" =
      jget body "auth_token" :=
    jget_jset_diff _ _ _ _ (by decide)
  refine ⟨?_, ?_, ?_⟩
  · intro h1 h2
    have he : ("" : String).isEmpty = true := rfl
    rcases h2 with h | h <;> subst h <;>
      simp [auth_token_v3, accessInfoV3_init, dsub, hv, h1, he]
  · intro s hs
    simp [auth_token_v3, accessInfoV3_init, dsub, hs, jget_jset_same]
  · intro t i h1 h2 h3
    simp [auth_token_v2, dsub2, dsub, jsub, h1, h2, h3]

/-- C10 witness: no bearer injected into a V3 body yields KeyError from
`auth_token`, while a V2 payload without an override returns `token.id`. -/
theorem c10_theorem_witness :
    auth_token_v3 (accessInfoV3_init none [("user", JVal.obj [])]) =
      Except.error PyErr.keyError ∧
    auth_token_v2 [("token", JVal.obj [("id", JVal.str "tid")])] =
      Except.ok (JVal.str "tid") := by
  have h1 := c10_theorem [("user", JVal.obj [])] none
  have h2 := c10_theorem [("token", JVal.obj [("id", JVal.str "tid")])] none
  exact ⟨h1.1 rfl (Or.inl rfl),
         h2.2.2 [("id", JVal.str "tid")] (JVal.str "tid") rfl rfl rfl⟩

end KeystoneAccess
